import Mathlib

/-!
# Verification of the MoIP Manager controller-integration layer

A shallow embedding, in Lean 4, of the pure logic of the `moip-manager`
repository: the line-protocol parsing of `src/moip/client.py`, the token
management and ID resolution of `src/moip/api_client.py`, the subtype
classification and snapshot restore of `src/app/sync.py`, the device upsert
of `src/app/database.py`, and the settings precedence of `src/config.py`.

Effectful Python code is embedded by making its inputs explicit (network
responses, per-call outcomes, stored state) and by returning the sequence
of external calls it performs as a trace.  Python dictionaries built by
comprehension are embedded as association lists with last-binding-wins
lookup; Python truthiness tests on `str` / `int` / `None` values are
embedded by explicit `pyTruthy…` functions.
-/

/-! ## Python-semantics helpers -/

/-- Truthiness of an optional Python string: `None` and `""` are falsy. -/
def pyTruthyStr : Option String → Bool
  | none => false
  | some s => !s.isEmpty

/-- Truthiness of an optional Python int: `None` and `0` are falsy. -/
def pyTruthyInt : Option Int → Bool
  | none => false
  | some n => n != 0

/-- Lookup in a Python dict built by successive insertion from an
association list: the last binding of a key wins (later comprehension
entries overwrite earlier ones). -/
def lastVal {κ υ : Type} [DecidableEq κ] : List (κ × υ) → κ → Option υ
  | [], _ => none
  | p :: t, k =>
    match lastVal t k with
    | some v => some v
    | none => if p.1 = k then some p.2 else none

/-- Point update of a total map. -/
def setk {κ υ : Type} [DecidableEq κ] (f : κ → υ) (k : κ) (v : υ) : κ → υ :=
  fun x => if x = k then v else f x

/-- Apply a list of keyed updates left to right (last write wins). -/
def applyUpds {κ υ : Type} [DecidableEq κ] (l : List (κ × υ)) (f : κ → υ) : κ → υ :=
  l.foldl (fun g p => setk g p.1 p.2) f

/-- Python `needle in haystack` substring containment on character lists. -/
def listInfixOf (n : List Char) : List Char → Bool
  | [] => n.isEmpty
  | c :: t => n.isPrefixOf (c :: t) || listInfixOf n t

/-- Python `needle in haystack` on strings. -/
def pyContains (needle hay : String) : Bool :=
  listInfixOf needle.data hay.data

/-- Python `str.lower()` (ASCII letters; the strings this program
compares are ASCII). -/
def lowerStr (s : String) : String :=
  String.mk (s.data.map Char.toLower)

/-- Python `str.upper()` (ASCII letters). -/
def upperStr (s : String) : String :=
  String.mk (s.data.map Char.toUpper)

/-! ## Device store and `upsert_device` (src/app/database.py, lines 77-110)

The `devices` table has a UNIQUE constraint on `group_id`; we embed the
table as a partial map from `group_id` to the stored row.  SQL `NULL`
becomes `Option.none`, `CURRENT_TIMESTAMP` becomes an explicit `now`
parameter. -/

/-- A row of the `devices` table (the columns written by `upsert_device`,
plus `created_at`). -/
structure DeviceRow where
  device_type : String
  device_index : Int
  subtype : String
  name : Option String
  icon_type : Option String
  mac_address : Option String
  ip_address : Option String
  model : Option String
  firmware : Option String
  unit_id : Option Int
  group_id : Int
  last_seen : Option Int
  created_at : Int
  updated_at : Int
  deriving Repr, DecidableEq

/-- The arguments of `upsert_device` (src/app/database.py lines 77-89):
optional arguments default to `None` in the source. -/
structure DeviceArgs where
  device_type : String
  device_index : Int
  group_id : Int
  subtype : String := "av"
  name : Option String := none
  icon_type : Option String := none
  mac_address : Option String := none
  ip_address : Option String := none
  model : Option String := none
  firmware : Option String := none
  unit_id : Option Int := none
  deriving Repr, DecidableEq

/-- SQL `COALESCE(a, b)` on two nullable values. -/
def coalesce {α : Type} : Option α → Option α → Option α
  | some v, _ => some v
  | none, b => b

/-- `upsert_device` (src/app/database.py lines 77-110): `INSERT … ON
CONFLICT(group_id) DO UPDATE` with `COALESCE(excluded.col, devices.col)`
for the nullable columns, overwrite for `device_type` / `device_index` /
`subtype`, and `CURRENT_TIMESTAMP` (= `now`) for `last_seen` /
`updated_at`. -/
def upsert_device (now : Int) (a : DeviceArgs) (store : Int → Option DeviceRow) :
    Int → Option DeviceRow :=
  fun gid =>
    if gid = a.group_id then
      match store a.group_id with
      | none => some
          { device_type := a.device_type
            device_index := a.device_index
            subtype := a.subtype
            name := a.name
            icon_type := a.icon_type
            mac_address := a.mac_address
            ip_address := a.ip_address
            model := a.model
            firmware := a.firmware
            unit_id := a.unit_id
            group_id := a.group_id
            last_seen := some now
            created_at := now
            updated_at := now }
      | some old => some
          { device_type := a.device_type
            device_index := a.device_index
            subtype := a.subtype
            name := coalesce a.name old.name
            icon_type := coalesce a.icon_type old.icon_type
            mac_address := coalesce a.mac_address old.mac_address
            ip_address := coalesce a.ip_address old.ip_address
            model := coalesce a.model old.model
            firmware := coalesce a.firmware old.firmware
            unit_id := coalesce a.unit_id old.unit_id
            group_id := a.group_id
            last_seen := some now
            created_at := old.created_at
            updated_at := now }
    else store gid

/-! ## Line-protocol client (src/moip/client.py)

`MoIPClient` opens a socket per command; the embedding takes the raw
response string as input and models the pure parsing. -/

/-- A `tx:rx` routing assignment (src/moip/models.py `RoutingEntry`;
the optional name fields are never set by `get_routing`). -/
structure RoutingEntry where
  tx : Int
  rx : Int
  deriving Repr, DecidableEq

/-- Device counts (src/moip/models.py `DeviceCounts`; parsed from
`\d+` groups, hence natural numbers). -/
structure DeviceCounts where
  tx_count : Nat
  rx_count : Nat
  deriving Repr, DecidableEq

/-- Python whitespace stripped by `int(str)`. -/
def isPySpace (c : Char) : Bool :=
  c = ' ' || c = '\t' || c = '\n' || c = '\r' || c = '\x0b' || c = '\x0c'

/-- Strip leading and trailing whitespace. -/
def trimSpaces (l : List Char) : List Char :=
  ((l.dropWhile isPySpace).reverse.dropWhile isPySpace).reverse

/-- Numeric value of a digit string. -/
def natOfDigits (l : List Char) : Nat :=
  l.foldl (fun n c => 10 * n + (c.toNat - '0'.toNat)) 0

/-- Python `int(str)`: optional surrounding whitespace, optional single
sign, then at least one decimal digit; any other shape raises
`ValueError` (`none` here).  (Digit-group underscores, accepted by
Python, are not modelled; none of the statements below depend on
them.) -/
def pyInt? (l : List Char) : Option Int :=
  match trimSpaces l with
  | '-' :: ds =>
      if !ds.isEmpty && ds.all Char.isDigit then some (-(natOfDigits ds : Int)) else none
  | '+' :: ds =>
      if !ds.isEmpty && ds.all Char.isDigit then some (natOfDigits ds : Int) else none
  | ds =>
      if !ds.isEmpty && ds.all Char.isDigit then some (natOfDigits ds : Int) else none

/-- Python `str.split(sep)` for a one-character separator: splitting the
empty string yields `[""]`, adjacent separators yield empty fields. -/
def splitOnCh (sep : Char) : List Char → List (List Char)
  | [] => [[]]
  | c :: rest =>
    let r := splitOnCh sep rest
    if c = sep then [] :: r
    else
      match r with
      | [] => [[c]]
      | h :: t => (c :: h) :: t

/-- Strip a literal prefix, or fail. -/
def dropPrefixCh : List Char → List Char → Option (List Char)
  | [], l => some l
  | _ :: _, [] => none
  | p :: ps, c :: cs => if c = p then dropPrefixCh ps cs else none

/-- `re.search(pat + "(.+)", s).group(1)` for a literal pattern `pat`:
the leftmost position where the literal matches and is followed by at
least one non-newline character wins; the greedy capture runs to the
next newline or the end of the string. -/
def reSearchCapture (pat : List Char) : List Char → Option (List Char)
  | [] => none
  | c :: rest =>
    match dropPrefixCh pat (c :: rest) with
    | some tail =>
      let cap := tail.takeWhile (fun ch => ch != '\n')
      if cap.isEmpty then reSearchCapture pat rest else some cap
    | none => reSearchCapture pat rest

/-- The loop body of `get_routing` (src/moip/client.py lines 96-104):
split each comma-separated token on `:`; tokens that do not split into
exactly two parts are skipped; two-part tokens are passed to `int()`,
whose `ValueError` propagates out of the whole call (`Except.error`). -/
def parsePairs : List (List Char) → Except String (List RoutingEntry)
  | [] => .ok []
  | p :: ps =>
    match splitOnCh ':' p with
    | [a, b] =>
      match pyInt? a, pyInt? b with
      | some ta, some rb => (parsePairs ps).map (fun es => ⟨ta, rb⟩ :: es)
      | _, _ => .error "invalid literal for int() with base 10"
    | _ => parsePairs ps

/-- `MoIPClient.get_routing` (src/moip/client.py lines 85-105) as a
function of the raw response: `re.search(r"\?Receivers=(.+)", response)`,
then split on `,`, then per-token parsing.  No regex match yields the
empty list. -/
def get_routing (response : String) : Except String (List RoutingEntry) :=
  match reSearchCapture "?Receivers=".data response.data with
  | none => .ok []
  | some cap => parsePairs (splitOnCh ',' cap)

/-- A token of the routing response that parses to an entry (two parts,
both valid integer literals). -/
def pairEntry? (p : List Char) : Option RoutingEntry :=
  match splitOnCh ':' p with
  | [a, b] =>
    match pyInt? a, pyInt? b with
    | some ta, some rb => some ⟨ta, rb⟩
    | _, _ => none
  | _ => none

/-- The `Receiver` record as populated by `get_all_receivers`
(src/moip/models.py; fields not set there keep their defaults and are
omitted). -/
structure Receiver where
  id : Int
  name : String
  current_tx : Option Int
  current_tx_name : Option String
  status : String
  deriving Repr, DecidableEq

/-- `MoIPClient.get_all_receivers` (src/moip/client.py lines 172-197) as
a function of the device counts, the parsed name lists (`id`/`name`
pairs from `get_receiver_names` / `get_transmitter_names`, turned into
dicts by comprehension) and the parsed routing table. -/
def get_all_receivers (counts : DeviceCounts) (rx_names tx_names : List (Int × String))
    (routing : List RoutingEntry) : List Receiver :=
  let routing_map := routing.map (fun e => (e.rx, e.tx))
  (List.range counts.rx_count).map (fun j =>
    let i : Int := (j : Int) + 1
    let current_tx := (lastVal routing_map i).getD 0
    { id := i
      name := (lastVal rx_names i).getD ("Rx" ++ toString i)
      current_tx := if current_tx > 0 then some current_tx else none
      current_tx_name := if current_tx > 0 then lastVal tx_names current_tx else none
      status := if current_tx > 0 then "streaming" else "idle" })

/-! ## Structured-API group records (src/moip/api_client.py, src/app/sync.py)

The API returns loosely-typed nested dicts; the fields this layer reads
(`id`, `settings.index`, `settings.name`, `settings.type`,
`associations.unit`, `associations.video_tx` / `video_rx`) are embedded
as optional fields (`dict.get` of a missing key is `None`). -/

/-- A detailed group record as read by `sync.py` and `api_client.py`. -/
structure GroupRec where
  id : Option Int := none
  settings_index : Option Int := none
  settings_name : Option String := none
  settings_type : Option String := none
  assoc_unit : Option Int := none
  assoc_video : Option Int := none
  deriving Repr, DecidableEq

/-- `determine_subtype` (src/app/sync.py lines 12-39): cascading rules on
`group.get('settings', {}).get('type', '').lower()`, falling back to the
model string (guarded by Python truthiness of `model`), defaulting to
`'av'`. -/
def determine_subtype (group : GroupRec) (model : Option String) : String :=
  let group_type := lowerStr (group.settings_type.getD "")
  if pyContains "video" group_type && pyContains "wall" group_type then "videowall"
  else if group_type = "audio" then "audio"
  else if group_type = "av" then "av"
  else
    match model with
    | some m =>
      if !m.isEmpty then
        let model_lower := lowerStr m
        if pyContains "-a-rx" model_lower || pyContains "-a-tx" model_lower then "audio"
        else if pyContains "wall" model_lower then "videowall"
        else "av"
      else "av"
    | none => "av"

/-! ## Token management (src/moip/api_client.py lines 42-61)

`time.time()` is embedded as an explicit integer `now`; the login
response `{accessToken, expiresIn}` is an explicit input.  The third
component of the result records whether `_login` was performed. -/

/-- The cached auth session of a `MoIPAPIClient` instance
(`_token` / `_token_expires`; initially `none` / `0`). -/
structure TokenState where
  token : Option String
  expires : Int
  deriving Repr, DecidableEq

/-- A login response body. -/
structure LoginResp where
  accessToken : String
  expiresIn : Int
  deriving Repr, DecidableEq

/-- `MoIPAPIClient._ensure_token` (src/moip/api_client.py lines 42-49)
together with `_login` (lines 51-61): return the cached token if it is
truthy and `now < expires - 60`, otherwise log in, cache
`accessToken` and `now + expiresIn`, and return the new token.  The
`Bool` records whether a login round-trip happened. -/
def ensure_token (now : Int) (resp : LoginResp) (st : TokenState) :
    String × TokenState × Bool :=
  if pyTruthyStr st.token ∧ now < st.expires - 60 then
    (st.token.getD "", st, false)
  else
    (resp.accessToken, { token := some resp.accessToken, expires := now + resp.expiresIn }, true)

/-! ## Cross-protocol ID resolution (src/moip/api_client.py lines 252-383)

`_get_video_tx_id` / `_get_video_rx_id` scan the detailed group list for
the record whose `settings.index` equals the protocol index; the per-
device operations guard on the Python truthiness of the resolved ID
(`if not video_tx_id`). -/

/-- `MoIPAPIClient._get_video_tx_id` (lines 252-266): first group whose
`settings.index` equals `tx_index`, then its `associations.video_tx`. -/
def get_video_tx_id (groups : List GroupRec) (tx_index : Int) : Option Int :=
  match groups.find? (fun g => g.settings_index == some tx_index) with
  | some g => g.assoc_video
  | none => none

/-- `MoIPAPIClient._get_video_rx_id` (lines 320-334), same scan over the
receiver-group list. -/
def get_video_rx_id (groups : List GroupRec) (rx_index : Int) : Option Int :=
  match groups.find? (fun g => g.settings_index == some rx_index) with
  | some g => g.assoc_video
  | none => none

/-- Observable outcome of a per-device video GET: the error dict
returned when resolution fails, or the authenticated request that would
be performed on the resolved resource ID. -/
inductive VideoGet where
  | errorDict (msg : String)
  | request (video_id : Int)
  deriving Repr, DecidableEq

/-- `MoIPAPIClient.get_video_tx` (lines 268-281): on falsy resolution,
return `{"status": {}, "error": "No video_tx found for this
transmitter"}` without performing the fetch. -/
def get_video_tx (groups : List GroupRec) (tx_index : Int) : VideoGet :=
  let vid := get_video_tx_id groups tx_index
  if pyTruthyInt vid then .request (vid.getD 0)
  else .errorDict "No video_tx found for this transmitter"

/-- `MoIPAPIClient.get_video_rx` (lines 336-349): on falsy resolution,
return `{"settings": {}, "error": "No video_rx found for this
receiver"}` without performing the fetch. -/
def get_video_rx (groups : List GroupRec) (rx_index : Int) : VideoGet :=
  let vid := get_video_rx_id groups rx_index
  if pyTruthyInt vid then .request (vid.getD 0)
  else .errorDict "No video_rx found for this receiver"

/-- `MoIPAPIClient.set_video_rx_resolution` (lines 351-366): on falsy
resolution, raise `ValueError(f"No video_rx found for receiver
{rx_index}")`; otherwise perform the PUT on the resolved ID. -/
def set_video_rx_resolution (groups : List GroupRec) (rx_index : Int)
    (resolution : String) : Except String (Int × String) :=
  let vid := get_video_rx_id groups rx_index
  if pyTruthyInt vid then .ok (vid.getD 0, resolution)
  else .error ("No video_rx found for receiver " ++ toString rx_index)

/-- `MoIPAPIClient.set_video_rx_hdcp` (lines 368-383): same guard as
`set_video_rx_resolution`. -/
def set_video_rx_hdcp (groups : List GroupRec) (rx_index : Int)
    (hdcp : String) : Except String (Int × String) :=
  let vid := get_video_rx_id groups rx_index
  if pyTruthyInt vid then .ok (vid.getD 0, hdcp)
  else .error ("No video_rx found for receiver " ++ toString rx_index)

/-! ## Settings precedence (src/config.py lines 19-51) -/

/-- The `env_map` dict of `get_setting` (src/config.py lines 36-42). -/
def env_map (key : String) : Option String :=
  if key = "controller_ip" then some "MOIP_HOST"
  else if key = "telnet_port" then some "MOIP_TELNET_PORT"
  else if key = "api_port" then some "MOIP_API_PORT"
  else if key = "username" then some "MOIP_API_USERNAME"
  else if key = "password" then some "MOIP_API_PASSWORD"
  else none

/-- The module-level `_DEFAULTS` dict (src/config.py lines 8-16). -/
def defaultsMap (key : String) : Option String :=
  if key = "controller_ip" then some ""
  else if key = "telnet_port" then some "23"
  else if key = "api_port" then some "443"
  else if key = "username" then some ""
  else if key = "password" then some ""
  else if key = "verify_ssl" then some "false"
  else if key = "timeout" then some "10"
  else none

/-- The final fallback of `get_setting`:
`return default or _DEFAULTS.get(key, "")` (src/config.py line 51). -/
def defaultStep (key : String) (default : Option String) : String :=
  match default with
  | some d => if !d.isEmpty then d else (defaultsMap key).getD ""
  | none => (defaultsMap key).getD ""

/-- The environment branch of `get_setting` (src/config.py lines 44-48):
look the key up in `env_map`; a truthy `os.getenv` value wins, anything
else falls through to the default step. -/
def envStep (env : String → Option String) (key : String) (default : Option String) : String :=
  match env_map key with
  | some name =>
    match env name with
    | some v => if !v.isEmpty then v else defaultStep key default
    | none => defaultStep key default
  | none => defaultStep key default

/-- `get_setting` (src/config.py lines 19-51) as a function of the
persisted settings dict (`db.get_all_settings()`) and the process
environment: `if key in stored and stored[key]` takes the persisted
value, else the environment branch, else the default step. -/
def get_setting (stored env : String → Option String) (key : String)
    (default : Option String) : String :=
  match stored key with
  | some v => if !v.isEmpty then v else envStep env key default
  | none => envStep env key default

/-! ## Snapshot restore (src/app/sync.py lines 180-231)

`restore_config_snapshot` loads the snapshot data and runs two
best-effort loops.  Two complementary embeddings are used:

* an *accounting* model in which every routing entry and device entry
  of the snapshot carries the outcome (`ok` or raised exception) of the
  external call it triggers; the model returns the `results` dict of the
  source together with the trace of calls performed;
* a *state* model (claim C4) in which all calls succeed and the
  controller state they mutate is explicit.  The controller itself is
  external hardware. Modelled from the spec: `switch` and the name-set
  operations are absolute last-write-wins assignments (spec §4.4). -/

/-- A snapshot device entry, as captured from the `devices` table
(`name` and `group_id` are nullable). -/
structure SnapDevice where
  device_type : String
  device_index : Int
  group_id : Option Int
  name : Option String
  deriving Repr, DecidableEq

/-- The skip test of the name-restore loop (src/app/sync.py line 219):
`if not device.get('name') or not device.get('group_id'): continue`. -/
def skipSnapDevice (d : SnapDevice) : Bool :=
  !pyTruthyStr d.name || !pyTruthyInt d.group_id

/-- A routing entry of the snapshot together with the outcome of the
`telnet_client.switch` call it triggers: `Except.error` is a raised
exception, `Except.ok b` a normal return of the boolean `b`. -/
structure RouteStep where
  route : RoutingEntry
  outcome : Except String Bool
  deriving Repr

/-- A device entry of the snapshot together with the outcome of the
name-set call it triggers (unused when the entry is skipped). -/
structure DeviceStep where
  dev : SnapDevice
  outcome : Except String Unit
  deriving Repr

/-- An external call performed during restore. -/
inductive ApiCall where
  | switchCall (tx rx : Int)
  | setTxName (group_id : Int) (name : String)
  | setRxName (group_id : Int) (name : String)
  deriving Repr, DecidableEq

/-- The `results` dict of `restore_config_snapshot`
(src/app/sync.py line 197). -/
structure RestoreResults where
  routing_restored : Nat
  names_restored : Nat
  errors : List String
  deriving Repr, DecidableEq

/-- The per-entry error message of the routing loop
(src/app/sync.py line 214). -/
def routeErrMsg (tx rx : Int) (e : String) : String :=
  "Failed to restore route Tx" ++ toString tx ++ "->Rx" ++ toString rx ++ ": " ++ e

/-- The per-entry error message of the name loop
(src/app/sync.py line 228). -/
def nameErrMsg (device_type : String) (device_index : Int) (e : String) : String :=
  "Failed to restore name for " ++ upperStr device_type ++ toString device_index ++ ": " ++ e

/-- The routing loop (src/app/sync.py lines 208-214): every entry
triggers a `switch` call; a normal return (either boolean) increments
`routing_restored`, a raised exception appends one error message and the
loop continues. -/
def runRouting : List RouteStep → Nat × List String × List ApiCall
  | [] => (0, [], [])
  | r :: rest =>
    let acc := runRouting rest
    match r.outcome with
    | .ok _ => (acc.1 + 1, acc.2.1, .switchCall r.route.tx r.route.rx :: acc.2.2)
    | .error e =>
        (acc.1, routeErrMsg r.route.tx r.route.rx e :: acc.2.1,
         .switchCall r.route.tx r.route.rx :: acc.2.2)

/-- The name loop (src/app/sync.py lines 217-228): entries failing the
truthiness test are skipped without any call; otherwise the tx or rx
name-set operation is called according to `device_type == 'tx'`; a raised
exception appends one error message and the loop continues. -/
def runNames : List DeviceStep → Nat × List String × List ApiCall
  | [] => (0, [], [])
  | d :: rest =>
    let acc := runNames rest
    if skipSnapDevice d.dev then acc
    else
      let call :=
        if d.dev.device_type = "tx" then
          ApiCall.setTxName (d.dev.group_id.getD 0) (d.dev.name.getD "")
        else
          ApiCall.setRxName (d.dev.group_id.getD 0) (d.dev.name.getD "")
      match d.outcome with
      | .ok _ => (acc.1 + 1, acc.2.1, call :: acc.2.2)
      | .error e =>
          (acc.1, nameErrMsg d.dev.device_type d.dev.device_index e :: acc.2.1,
           call :: acc.2.2)

/-- `restore_config_snapshot` (src/app/sync.py lines 180-231), accounting
model: run the routing loop when `restore_routing` and the name loop when
`restore_names`, return the `results` dict and the trace of external
calls.  The function is total: the restore always runs both loops to
completion and returns. -/
def restore_config_snapshot (routes : List RouteStep) (devices : List DeviceStep)
    (restore_routing restore_names : Bool) : RestoreResults × List ApiCall :=
  let r := if restore_routing then runRouting routes else (0, [], [])
  let n := if restore_names then runNames devices else (0, [], [])
  ({ routing_restored := r.1, names_restored := n.1, errors := r.2.1 ++ n.2.1 },
   r.2.2 ++ n.2.2)

/-- Controller state, as far as restore touches it. Modelled from the
spec: the physical controller is external to the repository; per spec
§4.4 both `switch` and name-set are absolute last-write-wins operations,
so its state is the routing table (`rx ↦ tx`) and the name of each
(tx?, groupId) group. -/
structure Controller where
  routing : Int → Int
  names : Bool × Int → Option String

/-- Effect of a successful `MoIPClient.switch(tx, rx)` on the controller
(spec §4.4 / §6: route receiver `rx` to transmitter `tx`, absolute). -/
def moip_switch (c : Controller) (tx rx : Int) : Controller :=
  { c with routing := setk c.routing rx tx }

/-- Effect of a successful `set_group_tx_name(group_id, name)`. -/
def set_group_tx_name (c : Controller) (gid : Int) (n : String) : Controller :=
  { c with names := setk c.names (true, gid) (some n) }

/-- Effect of a successful `set_group_rx_name(group_id, name)`. -/
def set_group_rx_name (c : Controller) (gid : Int) (n : String) : Controller :=
  { c with names := setk c.names (false, gid) (some n) }

/-- A snapshot's data as used by restore: the captured routing list and
device list (src/app/sync.py lines 209, 218). -/
structure Snapshot where
  routing : List RoutingEntry
  devices : List SnapDevice

/-- `restore_config_snapshot`, state model: the effect of one restore on
the controller when every external call succeeds, following the source's
loops (routing first, then names, with the same skip test and
`device_type == 'tx'` dispatch). -/
def restore_state (snap : Snapshot) (restore_routing restore_names : Bool)
    (c : Controller) : Controller :=
  let c1 :=
    if restore_routing then
      snap.routing.foldl (fun c r => moip_switch c r.tx r.rx) c
    else c
  if restore_names then
    snap.devices.foldl (fun c d =>
      if skipSnapDevice d then c
      else if d.device_type = "tx" then
        set_group_tx_name c (d.group_id.getD 0) (d.name.getD "")
      else
        set_group_rx_name c (d.group_id.getD 0) (d.name.getD "")) c1
  else c1

/-! ## General lemmas about the helpers -/

/-- A `some` string is truthy exactly when it is nonempty. -/
theorem pyTruthyStr_some (s : String) : pyTruthyStr (some s) = true ↔ s ≠ "" := by
  constructor
  · intro h hc
    subst hc
    exact absurd h (by decide)
  · intro h
    show (!s.isEmpty) = true
    cases hb : s.isEmpty with
    | true => exact absurd ((String.isEmpty_iff s).mp hb) h
    | false => rfl

/-- Characterization of the falsy optional strings. -/
theorem pyTruthyStr_eq_false (o : Option String) :
    pyTruthyStr o = false ↔ (o = none ∨ o = some "") := by
  cases o with
  | none => simp [pyTruthyStr]
  | some s =>
    constructor
    · intro h
      refine Or.inr ?_
      have hb : s.isEmpty = true := by
        have h2 := h
        simp only [pyTruthyStr, Bool.not_eq_false'] at h2
        exact h2
      exact congrArg some ((String.isEmpty_iff s).mp hb)
    · rintro (h | h)
      · simp at h
      · injection h with h
        subst h
        decide

/-- Characterization of the falsy optional ints. -/
theorem pyTruthyInt_eq_false (o : Option Int) :
    pyTruthyInt o = false ↔ (o = none ∨ o = some 0) := by
  cases o with
  | none => simp [pyTruthyInt]
  | some n => simp [pyTruthyInt]

/-- A key looked up by `lastVal` is bound in the list. -/
theorem lastVal_mem {κ υ : Type} [DecidableEq κ] (l : List (κ × υ)) (k : κ) (v : υ)
    (h : lastVal l k = some v) : (k, v) ∈ l := by
  induction l with
  | nil => simp [lastVal] at h
  | cons p t ih =>
    rw [lastVal] at h
    cases ht : lastVal t k with
    | some w =>
      simp only [ht, Option.some.injEq] at h
      subst h
      exact List.mem_cons_of_mem _ (ih ht)
    | none =>
      simp only [ht] at h
      obtain ⟨p1, p2⟩ := p
      by_cases hk : p1 = k
      · simp only at h
        rw [if_pos hk] at h
        simp only [Option.some.injEq] at h
        subst hk
        subst h
        exact List.mem_cons_self _ _
      · simp only at h
        rw [if_neg hk] at h
        simp at h

/-! ## Claim theorems -/

/-- Claim C1: for every upsert of a device record keyed by an existing
`group_id`, any incoming field value that is null (`name`, `icon_type`,
`mac_address`, `ip_address`, `model`, `firmware`, `unit_id`) leaves the
previously stored value for that field unchanged (in particular a stored
non-null value survives), while `device_type`, `device_index` and
`subtype` are always overwritten with the incoming values, and
`last_seen` and `updated_at` are always set to the current time. -/
theorem c1_upsert_merge_policy (now : Int) (a : DeviceArgs)
    (store : Int → Option DeviceRow) (old : DeviceRow)
    (h : store a.group_id = some old) :
    ∃ r, upsert_device now a store a.group_id = some r
      ∧ (a.name = none → r.name = old.name)
      ∧ (a.icon_type = none → r.icon_type = old.icon_type)
      ∧ (a.mac_address = none → r.mac_address = old.mac_address)
      ∧ (a.ip_address = none → r.ip_address = old.ip_address)
      ∧ (a.model = none → r.model = old.model)
      ∧ (a.firmware = none → r.firmware = old.firmware)
      ∧ (a.unit_id = none → r.unit_id = old.unit_id)
      ∧ r.device_type = a.device_type
      ∧ r.device_index = a.device_index
      ∧ r.subtype = a.subtype
      ∧ r.last_seen = some now
      ∧ r.updated_at = now := by
  refine ⟨{ device_type := a.device_type
            device_index := a.device_index
            subtype := a.subtype
            name := coalesce a.name old.name
            icon_type := coalesce a.icon_type old.icon_type
            mac_address := coalesce a.mac_address old.mac_address
            ip_address := coalesce a.ip_address old.ip_address
            model := coalesce a.model old.model
            firmware := coalesce a.firmware old.firmware
            unit_id := coalesce a.unit_id old.unit_id
            group_id := a.group_id
            last_seen := some now
            created_at := old.created_at
            updated_at := now },
         ?_, ?_, ?_, ?_, ?_, ?_, ?_, ?_, rfl, rfl, rfl, rfl, rfl⟩
  · simp [upsert_device, h]
  all_goals intro hn
  all_goals simp [hn, coalesce]

/-- The stored row used by the C1 witness. -/
def c1OldRow : DeviceRow :=
  { device_type := "rx", device_index := 3, subtype := "av",
    name := some "Living Room", icon_type := none,
    mac_address := some "aa:bb", ip_address := none, model := none,
    firmware := none, unit_id := none, group_id := 5,
    last_seen := some 1, created_at := 0, updated_at := 1 }

/-- The store used by the C1 witness: groupId 5 holds `c1OldRow`. -/
def c1Store : Int → Option DeviceRow :=
  fun g => if g = 5 then some c1OldRow else none

/-- The incoming upsert arguments of the C1 witness: null name and MAC,
new subtype and index. -/
def c1Args : DeviceArgs :=
  { device_type := "rx", device_index := 4, group_id := 5, subtype := "audio" }

/-- Witness for C1: upserting groupId 5 with a null incoming name keeps
the stored "Living Room" and the stored MAC, overwrites subtype and
index, and bumps the timestamps to now = 7. -/
theorem c1_witness :
    c1Store c1Args.group_id = some c1OldRow
    ∧ ∃ r, upsert_device 7 c1Args c1Store c1Args.group_id = some r
      ∧ (c1Args.name = none → r.name = c1OldRow.name)
      ∧ (c1Args.icon_type = none → r.icon_type = c1OldRow.icon_type)
      ∧ (c1Args.mac_address = none → r.mac_address = c1OldRow.mac_address)
      ∧ (c1Args.ip_address = none → r.ip_address = c1OldRow.ip_address)
      ∧ (c1Args.model = none → r.model = c1OldRow.model)
      ∧ (c1Args.firmware = none → r.firmware = c1OldRow.firmware)
      ∧ (c1Args.unit_id = none → r.unit_id = c1OldRow.unit_id)
      ∧ r.device_type = c1Args.device_type
      ∧ r.device_index = c1Args.device_index
      ∧ r.subtype = c1Args.subtype
      ∧ r.last_seen = some 7
      ∧ r.updated_at = 7 :=
  ⟨rfl, c1_upsert_merge_policy 7 c1Args c1Store c1OldRow rfl⟩

/-- Claim C5: for every authenticated API call holding a (truthy) cached
token, the cached token is reused — no login round-trip — exactly when
the current time is strictly less than the cached expiry minus 60
seconds; otherwise a fresh login is performed and the new token and
expiry (login time + `expiresIn`) are cached.  Instantiated at
`expires = 300` (a token obtained with `expiresIn = 300` at `t = 0`),
`now = 239` reuses and `now = 241` refreshes (see the witness). -/
theorem c5_ensure_token (now : Int) (resp : LoginResp) (st : TokenState) (t : String)
    (htok : st.token = some t) (hne : t ≠ "") :
    ((ensure_token now resp st).2.2 = false ↔ now < st.expires - 60)
    ∧ (now < st.expires - 60 → ensure_token now resp st = (t, st, false))
    ∧ (¬ now < st.expires - 60 →
        ensure_token now resp st =
          (resp.accessToken,
           { token := some resp.accessToken, expires := now + resp.expiresIn },
           true)) := by
  have htruthy : pyTruthyStr st.token = true := by
    rw [htok]
    exact (pyTruthyStr_some t).mpr hne
  by_cases hlt : now < st.expires - 60
  · refine ⟨by simp [ensure_token, htruthy, hlt], fun _ => ?_, fun hc => absurd hlt hc⟩
    simp [ensure_token, htruthy, hlt, htok, (pyTruthyStr_some t).mpr hne]
  · refine ⟨by simp [ensure_token, htruthy, hlt], fun hc => absurd hc hlt, fun _ => ?_⟩
    simp [ensure_token, htruthy, hlt]

/-- The cached session of the C5 witness: token "tok" with expiry 300
(obtained with `expiresIn = 300` at `t = 0`). -/
def c5State : TokenState := { token := some "tok", expires := 300 }

/-- The login response available to the C5 witness. -/
def c5Resp : LoginResp := { accessToken := "fresh", expiresIn := 300 }

/-- Witness for C5 at the 60-second early-refresh boundary: at
`now = 239 < 300 - 60` the cached token is reused with no login. -/
theorem c5_witness :
    c5State.token = some "tok"
    ∧ "tok" ≠ ""
    ∧ (((ensure_token 239 c5Resp c5State).2.2 = false ↔ (239 : Int) < c5State.expires - 60)
       ∧ ((239 : Int) < c5State.expires - 60 →
            ensure_token 239 c5Resp c5State = ("tok", c5State, false))
       ∧ (¬ (239 : Int) < c5State.expires - 60 →
            ensure_token 239 c5Resp c5State =
              (c5Resp.accessToken,
               { token := some c5Resp.accessToken, expires := 239 + c5Resp.expiresIn },
               true))) :=
  ⟨rfl, by decide, c5_ensure_token 239 c5Resp c5State "tok" rfl (by decide)⟩

/-- When no group record carries the requested index, resolution of the
tx video resource yields nothing. -/
theorem get_video_tx_id_eq_none (groups : List GroupRec) (idx : Int)
    (h : ∀ g ∈ groups, g.settings_index ≠ some idx) :
    get_video_tx_id groups idx = none := by
  unfold get_video_tx_id
  rw [List.find?_eq_none.mpr]
  intro g hg
  simpa using h g hg

/-- When no group record carries the requested index, resolution of the
rx video resource yields nothing. -/
theorem get_video_rx_id_eq_none (groups : List GroupRec) (idx : Int)
    (h : ∀ g ∈ groups, g.settings_index ≠ some idx) :
    get_video_rx_id groups idx = none := by
  unfold get_video_rx_id
  rw [List.find?_eq_none.mpr]
  intro g hg
  simpa using h g hg

/-- Claim C7: for every transmitter or receiver index for which scanning
the detailed group records finds no record whose `settings.index` equals
that index, the per-device video query returns the dedicated error dict
and the video setting updates raise the dedicated `ValueError`, in every
case without performing the fetch/update request. -/
theorem c7_resource_not_found (tx_groups rx_groups : List GroupRec) (idx : Int)
    (htx : ∀ g ∈ tx_groups, g.settings_index ≠ some idx)
    (hrx : ∀ g ∈ rx_groups, g.settings_index ≠ some idx) :
    get_video_tx tx_groups idx = .errorDict "No video_tx found for this transmitter"
    ∧ get_video_rx rx_groups idx = .errorDict "No video_rx found for this receiver"
    ∧ (∀ v, set_video_rx_resolution rx_groups idx v
        = .error ("No video_rx found for receiver " ++ toString idx))
    ∧ (∀ v, set_video_rx_hdcp rx_groups idx v
        = .error ("No video_rx found for receiver " ++ toString idx)) := by
  have h1 := get_video_tx_id_eq_none tx_groups idx htx
  have h2 := get_video_rx_id_eq_none rx_groups idx hrx
  refine ⟨?_, ?_, fun v => ?_, fun v => ?_⟩
  · simp [get_video_tx, h1, pyTruthyInt]
  · simp [get_video_rx, h2, pyTruthyInt]
  · simp [set_video_rx_resolution, h2, pyTruthyInt]
  · simp [set_video_rx_hdcp, h2, pyTruthyInt]

/-- The transmitter-group list of the C7 witness: one group at index 2,
so index 1 resolves to nothing. -/
def c7Groups : List GroupRec := [{ id := some 9, settings_index := some 2 }]

/-- Witness for C7: with only a group at index 2 on both sides, the
video operations at index 1 all fail with the not-found condition. -/
theorem c7_witness :
    (∀ g ∈ c7Groups, g.settings_index ≠ some 1)
    ∧ (get_video_tx c7Groups 1 = .errorDict "No video_tx found for this transmitter"
       ∧ get_video_rx c7Groups 1 = .errorDict "No video_rx found for this receiver"
       ∧ (∀ v, set_video_rx_resolution c7Groups 1 v
           = .error ("No video_rx found for receiver " ++ toString (1 : Int)))
       ∧ (∀ v, set_video_rx_hdcp c7Groups 1 v
           = .error ("No video_rx found for receiver " ++ toString (1 : Int)))) :=
  ⟨by decide, c7_resource_not_found c7Groups c7Groups 1 (by decide) (by decide)⟩

/-- The empty string is empty. -/
theorem emptyStr_isEmpty : "".isEmpty = true := rfl

/-- Claim C8: for every settings key, `get_setting` resolves with the
precedence: a non-empty persisted value wins; otherwise a non-empty
value of the mapped environment variable wins; otherwise the built-in
default (`_DEFAULTS`) is used.  (Callers pass no `default` argument, so
it is `None` here.) -/
theorem c8_get_setting_precedence (stored env : String → Option String) (key : String) :
    (∀ v, stored key = some v → v ≠ "" → get_setting stored env key none = v)
    ∧ (∀ n ev, (stored key = none ∨ stored key = some "") →
        env_map key = some n → env n = some ev → ev ≠ "" →
        get_setting stored env key none = ev)
    ∧ ((stored key = none ∨ stored key = some "") →
        (∀ n, env_map key = some n → (env n = none ∨ env n = some "")) →
        get_setting stored env key none = (defaultsMap key).getD "") := by
  refine ⟨?_, ?_, ?_⟩
  · intro v hv hne
    have : v.isEmpty = false := by
      cases hb : v.isEmpty with
      | true => exact absurd ((String.isEmpty_iff v).mp hb) hne
      | false => rfl
    simp [get_setting, hv, this]
  · intro n ev hst hn hev hne
    have hb : ev.isEmpty = false := by
      cases hb : ev.isEmpty with
      | true => exact absurd ((String.isEmpty_iff ev).mp hb) hne
      | false => rfl
    rcases hst with hst | hst
    · simp [get_setting, hst, envStep, hn, hev, hb]
    · simp [get_setting, hst, envStep, hn, hev, hb, emptyStr_isEmpty]
  · intro hst henv
    have hd : envStep env key none = (defaultsMap key).getD "" := by
      unfold envStep
      cases hn : env_map key with
      | none => rfl
      | some n =>
        rcases henv n hn with he | he
        · simp [he, defaultStep]
        · simp [he, defaultStep, emptyStr_isEmpty]
    rcases hst with hst | hst
    · simp [get_setting, hst, hd]
    · simp [get_setting, hst, hd, emptyStr_isEmpty]

/-- Witness for C8: with no persisted value and `MOIP_TELNET_PORT=2323`
in the environment, the `telnet_port` setting resolves to the
environment value. -/
theorem c8_witness :
    ((fun _ => none : String → Option String) "telnet_port" = none
       ∨ (fun _ => none : String → Option String) "telnet_port" = some "")
    ∧ env_map "telnet_port" = some "MOIP_TELNET_PORT"
    ∧ (fun n => if n = "MOIP_TELNET_PORT" then some "2323" else none) "MOIP_TELNET_PORT"
        = some "2323"
    ∧ "2323" ≠ ""
    ∧ get_setting (fun _ => none)
        (fun n => if n = "MOIP_TELNET_PORT" then some "2323" else none)
        "telnet_port" none = "2323" :=
  ⟨Or.inl rfl, rfl, by decide, by decide,
   (c8_get_setting_precedence (fun _ => none)
      (fun n => if n = "MOIP_TELNET_PORT" then some "2323" else none)
      "telnet_port").2.1 "MOIP_TELNET_PORT" "2323" (Or.inl rfl) rfl (by decide) (by decide)⟩

/-- Claim C6: subtype classification applies cascading rules with first
match winning, on the lower-cased type field `gt` (Python reads
`settings.get('type', '').lower()`): type containing both "video" and
"wall" gives videowall; type exactly "audio" gives audio; exactly "av"
gives av; otherwise a truthy model containing an audio-only marker
("-a-rx" / "-a-tx") gives audio; otherwise a model containing "wall"
gives videowall; otherwise av.  In particular `{type:"Video Wall"}`
classifies as videowall, `{type:"audio"}` as audio, model
"B-900-MOIP-A-RX" as audio, and model "B-900-MOIP-4K-RX" as av. -/
theorem c6_determine_subtype (group : GroupRec) (model : Option String) (gt : String)
    (hgt : gt = lowerStr (group.settings_type.getD "")) :
    ((pyContains "video" gt && pyContains "wall" gt) = true →
      determine_subtype group model = "videowall")
    ∧ ((pyContains "video" gt && pyContains "wall" gt) = false → gt = "audio" →
      determine_subtype group model = "audio")
    ∧ ((pyContains "video" gt && pyContains "wall" gt) = false → gt ≠ "audio" → gt = "av" →
      determine_subtype group model = "av")
    ∧ (∀ m, (pyContains "video" gt && pyContains "wall" gt) = false → gt ≠ "audio" → gt ≠ "av" →
      model = some m → m ≠ "" →
      (pyContains "-a-rx" (lowerStr m) || pyContains "-a-tx" (lowerStr m)) = true →
      determine_subtype group model = "audio")
    ∧ (∀ m, (pyContains "video" gt && pyContains "wall" gt) = false → gt ≠ "audio" → gt ≠ "av" →
      model = some m → m ≠ "" →
      (pyContains "-a-rx" (lowerStr m) || pyContains "-a-tx" (lowerStr m)) = false →
      pyContains "wall" (lowerStr m) = true →
      determine_subtype group model = "videowall")
    ∧ (∀ m, (pyContains "video" gt && pyContains "wall" gt) = false → gt ≠ "audio" → gt ≠ "av" →
      model = some m → m ≠ "" →
      (pyContains "-a-rx" (lowerStr m) || pyContains "-a-tx" (lowerStr m)) = false →
      pyContains "wall" (lowerStr m) = false →
      determine_subtype group model = "av")
    ∧ ((pyContains "video" gt && pyContains "wall" gt) = false → gt ≠ "audio" → gt ≠ "av" →
      (model = none ∨ model = some "") →
      determine_subtype group model = "av")
    ∧ determine_subtype { settings_type := some "Video Wall" } none = "videowall"
    ∧ determine_subtype { settings_type := some "audio" } none = "audio"
    ∧ determine_subtype {} (some "B-900-MOIP-A-RX") = "audio"
    ∧ determine_subtype {} (some "B-900-MOIP-4K-RX") = "av" := by
  subst hgt
  refine ⟨?_, ?_, ?_, ?_, ?_, ?_, ?_, by decide, by decide, by decide, by decide⟩
  · intro h1
    simp [determine_subtype, h1]
  · intro h1 h2
    simp [determine_subtype, h1, h2]
    decide
  · intro h1 h2 h3
    simp [determine_subtype, h1, h2, h3]
    decide
  · intro m h1 h2 h3 hm hne hmark
    have hb : m.isEmpty = false := by
      cases hb : m.isEmpty with
      | true => exact absurd ((String.isEmpty_iff m).mp hb) hne
      | false => rfl
    simp [determine_subtype, h1, h2, h3, hm, hb, hmark]
  · intro m h1 h2 h3 hm hne hmark hwall
    have hb : m.isEmpty = false := by
      cases hb : m.isEmpty with
      | true => exact absurd ((String.isEmpty_iff m).mp hb) hne
      | false => rfl
    simp [determine_subtype, h1, h2, h3, hm, hb, hmark, hwall]
  · intro m h1 h2 h3 hm hne hmark hwall
    have hb : m.isEmpty = false := by
      cases hb : m.isEmpty with
      | true => exact absurd ((String.isEmpty_iff m).mp hb) hne
      | false => rfl
    simp [determine_subtype, h1, h2, h3, hm, hb, hmark, hwall]
  · intro h1 h2 h3 hm
    rcases hm with hm | hm
    · simp [determine_subtype, h1, h2, h3, hm]
    · simp [determine_subtype, h1, h2, h3, hm, emptyStr_isEmpty]

/-- The group record of the C6 witness: an explicit type field "audio". -/
def c6Group : GroupRec := { settings_type := some "audio" }

/-- Witness for C6: rule (b) fires for an explicit "audio" type field. -/
theorem c6_witness :
    ("audio" : String) = lowerStr (c6Group.settings_type.getD "")
    ∧ (pyContains "video" "audio" && pyContains "wall" "audio") = false
    ∧ determine_subtype c6Group none = "audio" :=
  ⟨by decide, by decide,
   (c6_determine_subtype c6Group none "audio" (by decide)).2.1 (by decide) rfl⟩

/-- Closed form of the routing loop: the restored count is the number of
entries whose switch call returned normally, the error list holds one
message per raising entry (in snapshot order), and every entry triggers
exactly one switch call. -/
theorem runRouting_spec (routes : List RouteStep) :
    runRouting routes =
      ((routes.filter (fun r => r.outcome.isOk)).length,
       routes.filterMap (fun r =>
         match r.outcome with
         | .ok _ => none
         | .error e => some (routeErrMsg r.route.tx r.route.rx e)),
       routes.map (fun r => ApiCall.switchCall r.route.tx r.route.rx)) := by
  induction routes with
  | nil => rfl
  | cons r rest ih =>
    cases hr : r.outcome with
    | ok b =>
      simp [runRouting, ih, hr, List.filter_cons, List.filterMap_cons, Except.isOk, Except.toBool]
    | error e =>
      simp [runRouting, ih, hr, List.filter_cons, List.filterMap_cons, Except.isOk, Except.toBool]

/-- Closed form of the name loop: skipped entries contribute nothing;
each remaining entry triggers exactly one name-set call (tx or rx,
by `device_type == 'tx'`), is counted when the call returns normally,
and contributes one error message when it raises. -/
theorem runNames_spec (devices : List DeviceStep) :
    runNames devices =
      ((devices.filter (fun d => !skipSnapDevice d.dev && d.outcome.isOk)).length,
       devices.filterMap (fun d =>
         if skipSnapDevice d.dev then none
         else
           match d.outcome with
           | .ok _ => none
           | .error e => some (nameErrMsg d.dev.device_type d.dev.device_index e)),
       devices.filterMap (fun d =>
         if skipSnapDevice d.dev then none
         else some
           (if d.dev.device_type = "tx" then
             ApiCall.setTxName (d.dev.group_id.getD 0) (d.dev.name.getD "")
           else
             ApiCall.setRxName (d.dev.group_id.getD 0) (d.dev.name.getD "")))) := by
  induction devices with
  | nil => rfl
  | cons d rest ih =>
    by_cases hs : skipSnapDevice d.dev
    · simp [runNames, ih, hs, List.filter_cons, List.filterMap_cons]
    · cases hd : d.outcome with
      | ok u =>
        simp [runNames, ih, hs, hd, List.filter_cons, List.filterMap_cons, Except.isOk, Except.toBool]
      | error e =>
        simp [runNames, ih, hs, hd, List.filter_cons, List.filterMap_cons, Except.isOk, Except.toBool]

/-- Claim C2: for every snapshot restore with `restore_routing` enabled,
each routing entry whose switch call raises produces exactly one error
message referencing that tx/rx pair and is not counted in
`routing_restored`; the loop continues over every remaining entry and
the operation returns the results dict (the embedding is a total
function whose value is fully determined below).  In particular for a
snapshot of 5 routing entries where entry #3's switch fails the result
is `routing_restored = 4` with exactly that one error. -/
theorem c2_restore_routing_best_effort (routes : List RouteStep)
    (devices : List DeviceStep) (rn : Bool) :
    ((restore_config_snapshot routes devices true rn).1.routing_restored
        = (routes.filter (fun r => r.outcome.isOk)).length
     ∧ (restore_config_snapshot routes devices true rn).1.errors
        = routes.filterMap (fun r =>
            match r.outcome with
            | .ok _ => none
            | .error e => some (routeErrMsg r.route.tx r.route.rx e))
          ++ (if rn then (runNames devices).2.1 else []))
    ∧ (restore_config_snapshot
        [⟨⟨1, 1⟩, .ok true⟩, ⟨⟨2, 2⟩, .ok true⟩, ⟨⟨3, 3⟩, .error "switch failed"⟩,
         ⟨⟨4, 4⟩, .ok true⟩, ⟨⟨5, 5⟩, .ok true⟩] [] true true).1
       = { routing_restored := 4, names_restored := 0,
           errors := [routeErrMsg 3 3 "switch failed"] } := by
  constructor
  · cases rn with
    | true => simp [restore_config_snapshot, runRouting_spec]
    | false => simp [restore_config_snapshot, runRouting_spec]
  · decide

/-- Claim C10: during name restore, a snapshot device entry is skipped
(no name-set call, not counted, no error) exactly when its name or its
group_id is absent, empty, or zero; every non-skipped entry triggers the
transmitter name-set operation when `device_type = "tx"` and the
receiver name-set operation for every other `device_type`. -/
theorem c10_restore_names_dispatch (routes : List RouteStep)
    (devices : List DeviceStep) (rr : Bool) :
    (∀ d : SnapDevice, skipSnapDevice d = true ↔
        (d.name = none ∨ d.name = some "" ∨ d.group_id = none ∨ d.group_id = some 0))
    ∧ (restore_config_snapshot routes devices rr true).1.names_restored
        = (devices.filter (fun d => !skipSnapDevice d.dev && d.outcome.isOk)).length
    ∧ (restore_config_snapshot routes devices rr true).1.errors
        = (if rr then (runRouting routes).2.1 else [])
          ++ devices.filterMap (fun d =>
              if skipSnapDevice d.dev then none
              else
                match d.outcome with
                | .ok _ => none
                | .error e => some (nameErrMsg d.dev.device_type d.dev.device_index e))
    ∧ (restore_config_snapshot routes devices rr true).2
        = (if rr then (runRouting routes).2.2 else [])
          ++ devices.filterMap (fun d =>
              if skipSnapDevice d.dev then none
              else some
                (if d.dev.device_type = "tx" then
                  ApiCall.setTxName (d.dev.group_id.getD 0) (d.dev.name.getD "")
                else
                  ApiCall.setRxName (d.dev.group_id.getD 0) (d.dev.name.getD ""))) := by
  refine ⟨?_, ?_, ?_, ?_⟩
  · intro d
    constructor
    · intro h
      unfold skipSnapDevice at h
      rcases Bool.or_eq_true_iff.mp h with h | h
      · rcases (pyTruthyStr_eq_false d.name).mp (Bool.not_eq_true' .. ▸ h) with h2 | h2
        · exact Or.inl h2
        · exact Or.inr (Or.inl h2)
      · rcases (pyTruthyInt_eq_false d.group_id).mp (Bool.not_eq_true' .. ▸ h) with h2 | h2
        · exact Or.inr (Or.inr (Or.inl h2))
        · exact Or.inr (Or.inr (Or.inr h2))
    · intro h
      unfold skipSnapDevice
      rcases h with h | h | h | h
      · simp [(pyTruthyStr_eq_false d.name).mpr (Or.inl h)]
      · simp [(pyTruthyStr_eq_false d.name).mpr (Or.inr h)]
      · simp [(pyTruthyInt_eq_false d.group_id).mpr (Or.inl h)]
      · simp [(pyTruthyInt_eq_false d.group_id).mpr (Or.inr h)]
  · cases rr with
    | true => simp [restore_config_snapshot, runNames_spec]
    | false => simp [restore_config_snapshot, runNames_spec]
  · cases rr with
    | true => simp [restore_config_snapshot, runNames_spec]
    | false => simp [restore_config_snapshot, runNames_spec]
  · cases rr with
    | true => simp [restore_config_snapshot, runNames_spec]
    | false => simp [restore_config_snapshot, runNames_spec]

/-- Pointwise value of a left-to-right update fold: the last binding of
the key wins, else the original map. -/
theorem applyUpds_lookup {κ υ : Type} [DecidableEq κ] (l : List (κ × υ)) (f : κ → υ)
    (k : κ) : applyUpds l f k = (lastVal l k).getD (f k) := by
  induction l generalizing f with
  | nil => rfl
  | cons p t ih =>
    show applyUpds t (setk f p.1 p.2) k = _
    rw [ih]
    cases ht : lastVal t k with
    | some v => simp [lastVal, ht]
    | none =>
      by_cases hk : p.1 = k
      · simp [lastVal, ht, setk, hk]
      · have hk2 : ¬ k = p.1 := fun hc => hk hc.symm
        simp [lastVal, ht, setk, hk, hk2]

/-- Replaying the same keyed last-write-wins updates twice equals
replaying them once. -/
theorem applyUpds_idem {κ υ : Type} [DecidableEq κ] (l : List (κ × υ)) (f : κ → υ) :
    applyUpds l (applyUpds l f) = applyUpds l f := by
  funext k
  simp only [applyUpds_lookup]
  cases h : lastVal l k <;> simp

/-- The routing loop of the state model is a keyed update fold on the
`rx ↦ tx` map; the names map is untouched. -/
theorem routing_fold_eq (l : List RoutingEntry) (c : Controller) :
    l.foldl (fun c r => moip_switch c r.tx r.rx) c
      = { c with routing := applyUpds (l.map (fun r => (r.rx, r.tx))) c.routing } := by
  induction l generalizing c with
  | nil => rfl
  | cons r t ih =>
    rw [List.foldl_cons, ih]
    rfl

/-- The keyed name update performed for one snapshot device entry
(`none` when the entry is skipped). -/
def nameUpd (d : SnapDevice) : Option ((Bool × Int) × Option String) :=
  if skipSnapDevice d then none
  else if d.device_type = "tx" then some ((true, d.group_id.getD 0), some (d.name.getD ""))
  else some ((false, d.group_id.getD 0), some (d.name.getD ""))

/-- The name loop of the state model is a keyed update fold on the
names map; the routing map is untouched. -/
theorem names_fold_eq (l : List SnapDevice) (c : Controller) :
    l.foldl (fun c d =>
      if skipSnapDevice d then c
      else if d.device_type = "tx" then
        set_group_tx_name c (d.group_id.getD 0) (d.name.getD "")
      else
        set_group_rx_name c (d.group_id.getD 0) (d.name.getD "")) c
    = { c with names := applyUpds (l.filterMap nameUpd) c.names } := by
  induction l generalizing c with
  | nil => rfl
  | cons d t ih =>
    rw [List.foldl_cons, ih]
    by_cases hs : skipSnapDevice d
    · simp [nameUpd, hs, List.filterMap_cons]
    · by_cases ht : d.device_type = "tx"
      · simp [nameUpd, hs, ht, List.filterMap_cons, set_group_tx_name]
        rfl
      · simp [nameUpd, hs, ht, List.filterMap_cons, set_group_rx_name]
        rfl

/-- Closed form of one restore in the state model: a keyed update fold
on the routing map (when `restore_routing`) and on the names map (when
`restore_names`). -/
theorem restore_state_eq (snap : Snapshot) (rr rn : Bool) (c : Controller) :
    restore_state snap rr rn c =
      { routing :=
          if rr then applyUpds (snap.routing.map (fun r => (r.rx, r.tx))) c.routing
          else c.routing,
        names :=
          if rn then applyUpds (snap.devices.filterMap nameUpd) c.names
          else c.names } := by
  cases rr <;> cases rn <;>
    simp [restore_state, routing_fold_eq, names_fold_eq]

/-- Claim C4: restoring the same snapshot twice in succession, with the
same restore flags, against a controller whose switch and name-set
operations are absolute last-write-wins, produces the same final routing
table and device names as restoring it once. -/
theorem c4_restore_idempotent (snap : Snapshot) (rr rn : Bool) (c : Controller) :
    restore_state snap rr rn (restore_state snap rr rn c) = restore_state snap rr rn c := by
  rw [restore_state_eq, restore_state_eq]
  cases rr <;> cases rn <;> simp [applyUpds_idem]

/-- Claim C9: for every device counts value and routing table (routing
entries carry the protocol's non-negative transmitter indices, 0 meaning
unassigned), `get_all_receivers` returns exactly `rx_count` entries with
ids 1..rx_count in order; in every returned entry `current_tx` is `none`
or strictly positive (never 0) — it is `none` exactly when the routing
dict maps that receiver to transmitter 0 or contains no entry for it —
and `status` is "streaming" exactly when `current_tx` is not `none`,
"idle" otherwise. -/
theorem c9_get_all_receivers (counts : DeviceCounts)
    (rx_names tx_names : List (Int × String)) (routing : List RoutingEntry)
    (hpos : ∀ e ∈ routing, 0 ≤ e.tx) :
    (get_all_receivers counts rx_names tx_names routing).map (fun r => r.id)
      = (List.range counts.rx_count).map (fun j => (j : Int) + 1)
    ∧ ∀ r ∈ get_all_receivers counts rx_names tx_names routing,
        (∀ t, r.current_tx = some t → 0 < t)
        ∧ (r.current_tx = none ↔
            (lastVal (routing.map (fun e => (e.rx, e.tx))) r.id = some 0
             ∨ lastVal (routing.map (fun e => (e.rx, e.tx))) r.id = none))
        ∧ (r.status = "streaming" ↔ r.current_tx ≠ none)
        ∧ (r.current_tx = none → r.status = "idle") := by
  constructor
  · simp [get_all_receivers, List.map_map]
  · intro r hr
    simp only [get_all_receivers, List.mem_map, List.mem_range] at hr
    obtain ⟨j, _, rfl⟩ := hr
    set rmap := routing.map (fun e => (e.rx, e.tx)) with hrmap
    have hnonneg : ∀ v, lastVal rmap ((j : Int) + 1) = some v → 0 ≤ v := by
      intro v hv
      have hm := lastVal_mem rmap ((j : Int) + 1) v hv
      rw [hrmap] at hm
      obtain ⟨e, he, heq⟩ := List.mem_map.mp hm
      have : e.tx = v := congrArg Prod.snd heq
      exact this ▸ hpos e he
    by_cases hgt : (lastVal rmap ((j : Int) + 1)).getD 0 > 0
    · refine ⟨?_, ?_, ?_, ?_⟩
      · intro t ht
        simp only [hgt, if_pos] at ht
        injection ht with ht
        exact ht ▸ hgt
      · simp only [hgt, if_pos]
        constructor
        · intro hc
          exact absurd hc (by simp)
        · intro hc
          cases hv : lastVal rmap ((j : Int) + 1) with
          | some v =>
            rw [hv] at hc hgt
            rcases hc with hc | hc
            · injection hc with hc
              subst hc
              exact absurd hgt (by simp)
            · exact absurd hc (by simp)
          | none =>
            rw [hv] at hgt
            exact absurd hgt (by simp)
      · simp [hgt]
      · intro hc
        simp only [hgt, if_pos] at hc
        exact absurd hc (by simp)
    · have hzero : (lastVal rmap ((j : Int) + 1)).getD 0 = 0 := by
        cases hv : lastVal rmap ((j : Int) + 1) with
        | some v =>
          rw [hv] at hgt
          have h0 : 0 ≤ v := hnonneg v hv
          simp only [Option.getD_some] at hgt
          simp only [Option.getD_some]
          omega
        | none => rfl
      refine ⟨?_, ?_, ?_, ?_⟩
      · intro t ht
        rw [hzero] at ht
        simp at ht
      · rw [hzero]
        simp only [gt_iff_lt, lt_self_iff_false, if_false, true_iff]
        cases hv : lastVal rmap ((j : Int) + 1) with
        | some v =>
          rw [hv] at hzero
          simp only [Option.getD_some] at hzero
          exact Or.inl (hzero ▸ rfl)
        | none => exact Or.inr rfl
      · rw [hzero]
        simp
      · intro _
        rw [hzero]
        simp

/-- The routing table of the C9 witness: receiver 1 is routed to
transmitter 2; receiver 2 has no entry. -/
def c9Routing : List RoutingEntry := [⟨2, 1⟩]

/-- Witness for C9 with two receivers: the listing has ids 1 and 2 in
order, receiver 1 streams from transmitter 2 and receiver 2 is idle. -/
theorem c9_witness :
    (∀ e ∈ c9Routing, 0 ≤ e.tx)
    ∧ ((get_all_receivers ⟨1, 2⟩ [(1, "Rec")] [(2, "Roku")] c9Routing).map (fun r => r.id)
        = (List.range (2 : Nat)).map (fun j => (j : Int) + 1)
       ∧ ∀ r ∈ get_all_receivers ⟨1, 2⟩ [(1, "Rec")] [(2, "Roku")] c9Routing,
          (∀ t, r.current_tx = some t → 0 < t)
          ∧ (r.current_tx = none ↔
              (lastVal (c9Routing.map (fun e => (e.rx, e.tx))) r.id = some 0
               ∨ lastVal (c9Routing.map (fun e => (e.rx, e.tx))) r.id = none))
          ∧ (r.status = "streaming" ↔ r.current_tx ≠ none)
          ∧ (r.current_tx = none → r.status = "idle")) :=
  ⟨by decide, c9_get_all_receivers ⟨1, 2⟩ [(1, "Rec")] [(2, "Roku")] c9Routing (by decide)⟩

/-- Counterexample to claim C3 as stated: `get_routing` does NOT return
for every response string — on the response `"?Receivers=a:b"` the token
`"a:b"` splits into exactly two parts, so the loop calls `int("a")`,
which raises `ValueError` and propagates out of `get_routing`. -/
theorem c3_counterexample : (get_routing "?Receivers=a:b").isOk = false := by decide

/-- When every two-part token parses, the pair loop returns the
well-formed entries in order, skipping the other tokens. -/
theorem parsePairs_ok (ps : List (List Char))
    (h : ∀ p ∈ ps, (splitOnCh ':' p).length = 2 → (pairEntry? p).isSome) :
    parsePairs ps = .ok (ps.filterMap pairEntry?) := by
  induction ps with
  | nil => rfl
  | cons p t ih =>
    have htail : ∀ q ∈ t, (splitOnCh ':' q).length = 2 → (pairEntry? q).isSome :=
      fun q hq => h q (List.mem_cons_of_mem _ hq)
    cases hsp : splitOnCh ':' p with
    | nil => simp [parsePairs, hsp, pairEntry?, List.filterMap_cons, ih htail]
    | cons a rest =>
      cases rest with
      | nil => simp [parsePairs, hsp, pairEntry?, List.filterMap_cons, ih htail]
      | cons b rest2 =>
        cases rest2 with
        | nil =>
          have hp := h p (List.mem_cons_self _ _) (by simp [hsp])
          cases hx : pyInt? a with
          | none =>
            exfalso
            have hnone : pairEntry? p = none := by simp [pairEntry?, hsp, hx]
            rw [hnone] at hp
            simp at hp
          | some x =>
            cases hy : pyInt? b with
            | none =>
              exfalso
              have hnone : pairEntry? p = none := by simp [pairEntry?, hsp, hx, hy]
              rw [hnone] at hp
              simp at hp
            | some y =>
              have hpe : pairEntry? p = some ⟨x, y⟩ := by simp [pairEntry?, hsp, hx, hy]
              simp [parsePairs, hsp, hx, hy, List.filterMap_cons, hpe, ih htail, Except.map]
        | cons c rest3 =>
          simp [parsePairs, hsp, pairEntry?, List.filterMap_cons, ih htail]

/-- Claim C3, amended: for every response string *in which every
two-part `tx:rx` token consists of valid integer literals*, parsing the
routing table returns without raising: tokens that do not split into
exactly two parts are skipped silently, well-formed pairs are returned
in order, and an empty or unparsable response (no `?Receivers=` match)
yields an empty list.  (The amendment is forced by
`c3_counterexample`: a two-part token with a non-numeric part makes
`int()` raise, so the unconditional claim is false.) -/
theorem c3_get_routing_amended (response : String) :
    (reSearchCapture "?Receivers=".data response.data = none →
      get_routing response = .ok [])
    ∧ ∀ cap, reSearchCapture "?Receivers=".data response.data = some cap →
        (∀ p ∈ splitOnCh ',' cap, (splitOnCh ':' p).length = 2 → (pairEntry? p).isSome) →
        get_routing response = .ok ((splitOnCh ',' cap).filterMap pairEntry?) := by
  constructor
  · intro h
    simp [get_routing, h]
  · intro cap hcap hwf
    rw [get_routing, hcap]
    exact parsePairs_ok _ hwf

/-- Witness for C3 (amended): the spec's own example
`"?Receivers=1:10,2:8"` parses to the two entries in order. -/
theorem c3_witness :
    reSearchCapture "?Receivers=".data "?Receivers=1:10,2:8".data = some "1:10,2:8".data
    ∧ (∀ p ∈ splitOnCh ',' "1:10,2:8".data,
        (splitOnCh ':' p).length = 2 → (pairEntry? p).isSome)
    ∧ get_routing "?Receivers=1:10,2:8"
        = .ok ((splitOnCh ',' "1:10,2:8".data).filterMap pairEntry?)
    ∧ (splitOnCh ',' "1:10,2:8".data).filterMap pairEntry? = [⟨1, 10⟩, ⟨2, 8⟩] :=
  ⟨by decide, by decide,
   (c3_get_routing_amended "?Receivers=1:10,2:8").2 "1:10,2:8".data (by decide) (by decide),
   by decide⟩
